/-
Verification of the PTCG review-analytics engine against its specification.

The Python source (src/sentiment_analyzer.py, src/data_analyzer.py,
src/api.py) is shallowly embedded below.  Real (float) arithmetic is
modelled exactly over the rationals; the two external classification
back-ends (the NLTK VADER lexicon and the Hugging Face transformers
pipeline) are parameters of the embedding, given as fallible functions,
because the repository only calls into them.  pandas NaN cells are
modelled with Option.
-/
import Mathlib

/- The Batteries rational-number operations are `irreducible`, which stops
`decide` from evaluating concrete rational arithmetic; proofs here only
need them reducible. -/
set_option allowUnsafeReducibility true
attribute [semireducible] Rat.add Rat.mul Rat.inv Rat.sub Rat.neg Rat.blt

namespace PTCG

/-! ## Sentiment classifier (src/sentiment_analyzer.py) -/

/-- The (label, score) pair returned by `SentimentAnalyzer.analyze_text`. -/
structure SR where
  label : String
  score : ℚ
deriving DecidableEq, Repr

/-- The sentinel neutral result `{"label": "neutral", "score": 0.5}`. -/
def sentinelSR : SR := ⟨"neutral", 1/2⟩

/-- Python `str.lower()` (per-character lowering). -/
def lowerStr (s : String) : String := String.mk (s.data.map Char.toLower)

/-- Python `not text.strip()`: the string is empty or all whitespace. -/
def strippedEmpty (s : String) : Bool := s.data.all Char.isWhitespace

/-- Input of `analyze_text`: a Python value that is a string, `None`,
or a non-string value.  The guard `not text or not isinstance(text, str)`
also catches the empty string. -/
inductive TextInput where
  | noText
  | str (s : String)
  | nonString
deriving DecidableEq, Repr

/-- `SentimentAnalyzer.analyze_text` (lines 48-88).  `model` is the external
transformers pipeline (returns a raw label and a confidence, or raises);
`vader` is the external VADER `polarity_scores(...)[compound]` value
(or raises).  `threshold` is `self.neutral_threshold` (default 0.15). -/
def analyzeText (useTransformers : Bool) (threshold : ℚ)
    (model : String → Except String (String × ℚ))
    (vader : String → Except String ℚ) : TextInput → SR
  | .noText => sentinelSR
  | .nonString => sentinelSR
  | .str s =>
      if s = "" then sentinelSR
      else if useTransformers then
        match model (s.take 512) with
        | .ok (lab, sc) => ⟨lowerStr lab, sc⟩
        | .error _ => sentinelSR
      else
        match vader s with
        | .ok compound =>
            ⟨if threshold ≤ compound then "positive"
             else if compound ≤ -threshold then "negative"
             else "neutral", compound⟩
        | .error _ => sentinelSR

/-- The text built by `analyze_row` inside `analyze_dataframe` (lines 113-126):
title (if present) followed by `". "`, then content (if present). -/
def combineText (title content : Option String) : String :=
  (match title with
   | some t => t ++ ". "
   | none => "") ++
  (match content with
   | some c => c
   | none => "")

/-- `analyze_row` (lines 113-126): a whitespace-only combination returns the
sentinel without consulting a strategy; otherwise `analyze_text` is called. -/
def analyzeRow (useTransformers : Bool) (threshold : ℚ)
    (model : String → Except String (String × ℚ))
    (vader : String → Except String ℚ)
    (title content : Option String) : SR :=
  let combined := combineText title content
  if strippedEmpty combined then sentinelSR
  else analyzeText useTransformers threshold model vader (.str combined)

/-! ## Concurrent classification scheduler (analyze_dataframe, lines 128-157) -/

/-- The `try: future.result() ... except: sentinel` collection step
(lines 140-149): a unit of work that raised is replaced by the sentinel. -/
def absorbResult (e : Except String SR) : SR :=
  match e with
  | .ok r => r
  | .error _ => sentinelSR

/-- The attachment loop (lines 152-154): each collected `(index, result)`
pair is written at its own row index (`result_df.at[index, ...]`),
regardless of the order in which results were collected. -/
def attachAll (results : List (Nat × SR)) (acc : List (Option SR)) :
    List (Option SR) :=
  results.foldl (fun a p => a.set p.1 (some p.2)) acc

/-- The scheduler: `work i` is the unit submitted to the pool for row `i`
(`analyze_row` applied to that row; `.error` models a raised exception),
`perm` is the order in which `as_completed` yields the futures, and the
result is the per-row cell content (`none` = never written, i.e. NaN). -/
def scheduleBatch (work : Nat → Except String SR) (perm : List Nat)
    (n : Nat) : List (Option SR) :=
  attachAll (perm.map (fun i => (i, absorbResult (work i))))
    (List.replicate n none)

/-! ## The record set (a pandas DataFrame, columnar view)

`has…` flags model column presence (the `in df.columns` checks); `Option` cells
model NaN/NaT.  The `Date` column is either raw strings (not yet
`datetime64`-typed) or parsed values, a whole-column property in pandas;
a parsed date is a day number (an integer). -/

inductive DateColumn where
  | raw (vals : List String)
  | dt (vals : List (Option ℤ))
deriving DecidableEq, Repr

structure DataFrame where
  dates : DateColumn
  ratings : List ℚ
  hasRating : Bool
  versions : List String
  hasVersion : Bool
  labels : List String
  hasLabel : Bool
  scores : List ℚ
  hasScore : Bool
  titles : List (Option String)
  contents : List (Option String)
deriving DecidableEq, Repr

/-- `len(df)`: the number of rows. -/
def DataFrame.n (df : DataFrame) : Nat :=
  match df.dates with
  | .raw l => l.length
  | .dt l => l.length

/-- `pd.api.types.is_datetime64_dtype` on the Date column. -/
def DataFrame.dtTyped (df : DataFrame) : Bool :=
  match df.dates with
  | .raw _ => false
  | .dt _ => true

/-- The non-NaT parsed dates, in row order. -/
def validDates (df : DataFrame) : List ℤ :=
  match df.dates with
  | .raw _ => []
  | .dt l => l.filterMap id

/-- A rectangular frame: every column has one cell per row. -/
def DataFrame.WF (df : DataFrame) : Prop :=
  df.ratings.length = df.n ∧ df.versions.length = df.n ∧
  df.labels.length = df.n ∧ df.scores.length = df.n ∧
  df.titles.length = df.n ∧ df.contents.length = df.n

/-- The `pd.to_datetime` Date-column assignment with coerced errors: the in-place
coercion of a raw date column (`parse` is the external date parser;
`none` is NaT).  On an already-parsed column nothing happens. -/
def coerceDates (parse : String → Option ℤ) (df : DataFrame) : DataFrame :=
  match df.dates with
  | .raw vs => { df with dates := .dt (vs.map parse) }
  | .dt _ => df

/-! ## Batch classification (`SentimentAnalyzer.analyze_dataframe`) -/

/-- The per-row unit of work submitted to the pool: `analyze_row` on
the title and content cells of row `i`. -/
def rowUnit (useTransformers : Bool) (threshold : ℚ)
    (model : String → Except String (String × ℚ))
    (vader : String → Except String ℚ)
    (df : DataFrame) (i : Nat) : Except String SR :=
  .ok (analyzeRow useTransformers threshold model vader
        ((df.titles.getD i none)) ((df.contents.getD i none)))

/-- The per-row cell contents produced by the scheduler for this frame,
under completion order `perm`. -/
def attachedResults (useTransformers : Bool) (threshold : ℚ)
    (model : String → Except String (String × ℚ))
    (vader : String → Except String ℚ)
    (perm : List Nat) (df : DataFrame) : List (Option SR) :=
  scheduleBatch (rowUnit useTransformers threshold model vader df) perm df.n

/-- `SentimentAnalyzer.analyze_dataframe` (lines 90-157): an empty frame is
returned unchanged; otherwise the attached results become the
`sentiment_label` / `sentiment_score` columns of a copy of `df`.
A cell never written by the attachment loop is NaN in the source; it is
rendered here with placeholder values, and the theorems show that under a
complete completion order every cell is written. -/
def analyzeDataframe (useTransformers : Bool) (threshold : ℚ)
    (model : String → Except String (String × ℚ))
    (vader : String → Except String ℚ)
    (perm : List Nat) (df : DataFrame) : DataFrame :=
  if df.n = 0 then df
  else
    let attached := attachedResults useTransformers threshold model vader perm df
    { df with
      labels := attached.map (fun o => (o.getD ⟨"", 0⟩).label),
      hasLabel := true,
      scores := attached.map (fun o => (o.getD ⟨"", 0⟩).score),
      hasScore := true }

/-! ## Numeric helpers (pandas/numpy operations used by data_analyzer.py) -/

/-- Mean of a list of rationals (`Series.mean`); the empty case, NaN in
pandas, is only reached behind emptiness guards in the source. -/
def listMeanQ (xs : List ℚ) : ℚ := xs.sum / (xs.length : ℚ)

/-- Minimum of a list of integers (`Series.min` over non-NaT dates). -/
def listMinZ : List ℤ → ℤ
  | [] => 0
  | x :: xs => xs.foldl min x

/-- Maximum of a list of integers (`Series.max` over non-NaT dates). -/
def listMaxZ : List ℤ → ℤ
  | [] => 0
  | x :: xs => xs.foldl max x

/-- Number of rows whose `sentiment_label` cell equals `l`
(`value_counts` lookup / boolean-mask `shape[0]`). -/
def countLabel (l : String) (labels : List String) : Nat :=
  (labels.filter (fun x => x = l)).length

/-- Sample variance (`Series.std(ddof=1)` squared).  The source reports the
square root, which no claim inspects; squaring is strictly monotone on the
nonnegatives, so the branch structure is unchanged.  One-element input,
NaN in pandas, falls on the rational 0/0 = 0 convention. -/
def sampleVar (xs : List ℚ) : ℚ :=
  let m := listMeanQ xs
  (xs.map (fun x => (x - m) ^ 2)).sum / ((xs.length : ℚ) - 1)

/-- Pearson correlation in signed-square form: the source reports
r = cov / sqrt(varX * varY); this field stores r * |r|, which has the same
sign and zeros and avoids an irrational square root.  No claim inspects
the value; zero-variance input, NaN in pandas, falls on division by zero
(= 0 over ℚ). -/
def corrSigned (xs ys : List ℚ) : ℚ :=
  let mx := listMeanQ xs
  let my := listMeanQ ys
  let pairs := xs.zip ys
  let cov := (pairs.map (fun p => (p.1 - mx) * (p.2 - my))).sum
  let vx := (xs.map (fun x => (x - mx) ^ 2)).sum
  let vy := (ys.map (fun y => (y - my) ^ 2)).sum
  (cov * |cov|) / (vx * vy)

/-- Python `round(_, 2)` (half-even rounding), over ℚ. -/
def roundHalfEven (y : ℚ) : ℤ :=
  let f := ⌊y⌋
  let r := y - (f : ℚ)
  if r < 1/2 then f
  else if 1/2 < r then f + 1
  else if f % 2 = 0 then f else f + 1

/-- `round(x, 2)`. -/
def roundTo2 (x : ℚ) : ℚ := ((roundHalfEven (x * 100) : ℚ)) / 100

/-! ## Sentiment distribution (`DataAnalyzer.analyze_sentiment_distribution`,
data_analyzer.py lines 64-105) -/

/-- Result: the degenerate `{"sentiment_distribution": {}}` early return, or
the full statistics record.  The `sentiment_distribution` counts mapping of
the full record, inspected by no claim, is elided. -/
inductive DistOut where
  | degenerate
  | stats (positiveRatio negativeRatio neutralRatio
           averageSentimentScore sentimentScoreStdSq
           ratingSentimentCorrSigned : ℚ)
deriving DecidableEq, Repr

/-- Share of rows carrying label `l` (`count / len(df)`, 0 on an empty
frame): the formula of lines 82-84 and, identically, of the per-period
ratios of lines 292-304. -/
def labelRatio (l : String) (df : DataFrame) : ℚ :=
  if 0 < df.n then (countLabel l df.labels : ℚ) / (df.n : ℚ) else 0

/-- The rating-sentiment correlation step (lines 92-93): the guard checks
only that `Rating` is present and `len(df) > 1`; the selection
`df[[Rating, sentiment_score]]` then raises a KeyError when the
`sentiment_score` column is absent, modelled by `.error`. -/
def corrStep (df : DataFrame) : Except String ℚ :=
  if df.hasRating ∧ 1 < df.n then
    (if df.hasScore then .ok (corrSigned df.ratings df.scores)
     else .error "KeyError: [sentiment_score] not in index")
  else .ok 0

/-- `analyze_sentiment_distribution`. -/
def analyzeSentimentDistribution (df : DataFrame) : Except String DistOut :=
  if df.n = 0 ∨ df.hasLabel = false then .ok .degenerate
  else
    match corrStep df with
    | .error e => .error e
    | .ok c => .ok (.stats (labelRatio "positive" df)
        (labelRatio "negative" df) (labelRatio "neutral" df)
        (if df.hasScore then listMeanQ df.scores else 0)
        (if df.hasScore then sampleVar df.scores else 0) c)

/-- Projection used to state claims about the three ratio fields. -/
def distRatios : Except String DistOut → Option (ℚ × ℚ × ℚ)
  | .ok (.stats p q r _ _ _) => some (p, q, r)
  | _ => none

/-! ## Sentiment trend (`DataAnalyzer.analyze_sentiment_trend`,
data_analyzer.py lines 107-180) -/

/-- Daily buckets spanned by `pd.Grouper` with daily frequency on Date:
every calendar day from the earliest to the latest observed date,
including days with no records. -/
def dayRange (lo hi : ℤ) : List ℤ :=
  (List.range (hi - lo + 1).toNat).map (fun i => lo + (i : ℤ))

/-- The per-row (date, sentiment_score) pairs with a non-NaT date
(rows with NaT dates are dropped / excluded from the grouping). -/
def datedScores (df : DataFrame) : List (ℤ × ℚ) :=
  match df.dates with
  | .raw _ => []
  | .dt l => (l.zip df.scores).filterMap
      (fun p => p.1.map (fun d => (d, p.2)))

/-- The grouped mean-score series: one entry per day of the spanned range,
`none` (NaN) for a day with no records. -/
def bucketMeans (df : DataFrame) : List (Option ℚ) :=
  let pts := datedScores df
  match pts with
  | [] => []
  | _ =>
    let ds := pts.map Prod.fst
    (dayRange (listMinZ ds) (listMaxZ ds)).map (fun d =>
      let g := (pts.filter (fun p => p.1 = d)).map Prod.snd
      match g with
      | [] => none
      | _ => some (listMeanQ g))

/-- The (bucket index, mean) pairs with a defined mean
(`valid_indices = ~np.isnan(y)`, lines 147-152). -/
def validBuckets (df : DataFrame) : List (ℚ × ℚ) :=
  (bucketMeans df).enum.filterMap
    (fun p => p.2.map (fun y => ((p.1 : ℚ), y)))

/-- Least-squares slope of y over x (`np.polyfit(x, y, 1)[0]`).
A zero denominator (unreachable for ≥ 2 distinct indices) gives 0 over ℚ,
which coincides with the `except: slope = 0` arm of the source. -/
def lsqSlope (pts : List (ℚ × ℚ)) : ℚ :=
  let n : ℚ := (pts.length : ℚ)
  let sx := (pts.map Prod.fst).sum
  let sy := (pts.map Prod.snd).sum
  let sxy := (pts.map (fun p => p.1 * p.2)).sum
  let sxx := (pts.map (fun p => p.1 ^ 2)).sum
  (n * sxy - sx * sy) / (n * sxx - sx ^ 2)

/-- The trend slope (lines 146-160): 0 unless both the bucket series and
its defined part have more than one entry. -/
def trendSlope (df : DataFrame) : ℚ :=
  if 1 < (bucketMeans df).length then
    (if 1 < (validBuckets df).length then lsqSlope (validBuckets df) else 0)
  else 0

/-- Trend direction labels (the Chinese strings 上升/下降/穩定 of the source,
"up"/"down"/"stable"). -/
inductive TrendDirection where
  | up
  | down
  | stable
deriving DecidableEq, Repr

/-- Lines 163-168: strict threshold comparisons at ±0.01. -/
def directionOf (slope : ℚ) : TrendDirection :=
  if 1/100 < slope then .up
  else if slope < -(1/100) then .down
  else .stable

/-- Result of `analyze_sentiment_trend`: the degenerate
`{"sentiment_trend": {}}` early return, or slope and direction.  The
per-day series and the extreme-date fields, inspected by no claim,
are elided. -/
inductive TrendOut where
  | degenerate
  | trend (slope : ℚ) (direction : TrendDirection)
deriving DecidableEq, Repr

/-- The trend analysis of a nonempty labelled frame with parsed dates.
Line 128 selects `df.groupby(...)[sentiment_score]` without checking
that the column exists; its absence raises a KeyError, modelled by
`.error`. -/
def trendResultE (d : DataFrame) : Except String TrendOut :=
  if d.hasScore = false then .error "KeyError: sentiment_score"
  else .ok (.trend (trendSlope d) (directionOf (trendSlope d)))

/-- `analyze_sentiment_trend`.  Returns the analysis together with the
caller-visible frame: the in-place `Date` coercion (lines 123-125) runs
after the emptiness early return. -/
def analyzeSentimentTrend (parse : String → Option ℤ) (df : DataFrame) :
    Except String TrendOut × DataFrame :=
  if df.n = 0 ∨ df.hasLabel = false then (.ok .degenerate, df)
  else (trendResultE (coerceDates parse df), coerceDates parse df)

/-- Projection used to state claims about the direction field. -/
def trendDirection : Except String TrendOut → Option TrendDirection
  | .ok (.trend _ d) => some d
  | _ => none

/-! ## Review volume (`DataAnalyzer.analyze_review_volume`,
data_analyzer.py lines 21-62) -/

/-- First index-value pair with the maximal value (`Series.idxmax`,
which returns the first maximum). -/
def argmaxFirst (l : List (ℤ × ℕ)) : ℤ × ℕ :=
  match l with
  | [] => (0, 0)
  | x :: xs => xs.foldl (fun best p => if best.2 < p.2 then p else best) x

/-- Result of `analyze_review_volume`: the degenerate
`{"review_counts": {}}` early return, or per-day counts, total, mean
daily count and the peak day. -/
inductive VolumeOut where
  | degenerate
  | vol (reviewCounts : List (ℤ × ℕ)) (totalReviews : ℕ)
        (averageDailyReviews : ℚ) (peakDate : ℤ) (peakCount : ℕ)
deriving DecidableEq, Repr

/-- The volume analysis of a nonempty frame with parsed dates.  With no
valid date at all, `review_counts` is empty and `review_counts.idxmax()`
(line 51) raises, modelled by `.error`. -/
def volumeResultE (d : DataFrame) : Except String VolumeOut :=
  match validDates d with
  | [] => .error "ValueError: idxmax of an empty series"
  | vds =>
    let counts := (dayRange (listMinZ vds) (listMaxZ vds)).map
      (fun day => (day, vds.count day))
    let peak := argmaxFirst counts
    .ok (.vol counts vds.length
          (listMeanQ (counts.map (fun p => (p.2 : ℚ))))
          peak.1 peak.2)

/-- `analyze_review_volume` with its caller-visible frame; the in-place
`Date` coercion (lines 37-39) runs after the emptiness early return. -/
def analyzeReviewVolume (parse : String → Option ℤ) (df : DataFrame) :
    Except String VolumeOut × DataFrame :=
  if df.n = 0 then (.ok .degenerate, df)
  else (volumeResultE (coerceDates parse df), coerceDates parse df)

/-! ## Topic analysis (`DataAnalyzer.analyze_topics`,
data_analyzer.py lines 182-241) -/

/-- The fixed English stop-word set (lines 214-221). -/
def stopwords : List String :=
  ["a", "an", "the", "and", "or", "but", "if", "because", "as", "what",
   "when", "where", "how", "to", "in", "is", "it", "of", "for", "with",
   "this", "that", "be", "on", "are", "was", "were", "has", "have",
   "had", "not", "by", "at", "from", "so", "some", "other", "than",
   "then", "can", "could", "will", "would", "my", "your", "his", "her",
   "their", "our", "its", "i", "you", "he", "she", "they", "we", "who",
   "whom", "whose", "which", "there", "here", "all", "any", "each", "more",
   "most", "need", "im", "just", "dont", "get", "also", "ill", "very"]

/-- Python `text.split()`: split on whitespace runs, dropping empties. -/
def wordsAux : List Char → List Char → List String
  | [], cur => if cur = [] then [] else [String.mk cur.reverse]
  | c :: rest, cur =>
      if c.isWhitespace then
        (if cur = [] then wordsAux rest []
         else String.mk cur.reverse :: wordsAux rest [])
      else wordsAux rest (c :: cur)

/-- Python `text.split()` on a string. -/
def splitWords (s : String) : List String := wordsAux s.data []

/-- The word list contributed by one record: title (if present) plus a
space, then content (if present), lower-cased, tokenized, with stop words
and words of length ≤ 2 dropped (lines 202-229). -/
def rowWords (title content : Option String) : List String :=
  let text := (match title with
               | some t => t ++ " "
               | none => "") ++
              (match content with
               | some c => c
               | none => "")
  (splitWords (lowerStr text)).filter
    (fun w => w ∉ stopwords ∧ 2 < w.length)

/-- Distinct elements in first-appearance order (the key order of a
`Counter` / of `value_counts`). -/
def firstUniques : List String → List String
  | [] => []
  | x :: xs => x :: firstUniques (xs.filter (fun y => y ≠ x))
termination_by l => l.length
decreasing_by
  simp only [List.length_cons]
  exact Nat.lt_succ_of_le (List.length_filter_le _ _)

/-- Stable insertion keeping earlier-seen elements first among equal
counts (`Counter.most_common` sorts by descending count, ties by
insertion order). -/
def insertByCount (cnt : String → ℕ) (x : String) :
    List String → List String
  | [] => [x]
  | y :: ys =>
      if cnt y ≤ cnt x then x :: y :: ys else y :: insertByCount cnt x ys

/-- Distinct words sorted by descending count, first-encountered first on
ties. -/
def sortByCountDesc (cnt : String → ℕ) (l : List String) : List String :=
  l.foldr (insertByCount cnt) []

/-- `Counter(all_words).most_common(top_n)`. -/
def topKeywords (topN : ℕ) (words : List String) : List (String × ℕ) :=
  ((sortByCountDesc (fun w => words.count w) (firstUniques words)).take
    topN).map (fun w => (w, words.count w))

/-- Result of `analyze_topics`. -/
inductive TopicsOut where
  | degenerate
  | topics (topKw : List (String × ℕ))
deriving DecidableEq, Repr

/-- `analyze_topics` with its caller-visible frame (the function assigns
to no column of `df`, so the frame is returned as received).  An absent
optional Title/Content column is modelled as a column of NaN cells, which
the source treats identically (column-presence check conjoined with
`notna`). -/
def analyzeTopics (topN : ℕ) (df : DataFrame) : TopicsOut × DataFrame :=
  if df.n = 0 then (.degenerate, df)
  else
    let words := ((List.range df.n).map (fun i =>
      rowWords (df.titles.getD i none) (df.contents.getD i none))).flatten
    (.topics (topKeywords topN words), df)

/-! ## Period comparison (`DataAnalyzer.compare_time_periods`,
data_analyzer.py lines 243-524) -/

/-- `review_change` (line 268): fractional change of the review totals.
The float-infinity sentinel for an empty first period is unreachable
behind the emptiness early return and falls on the `else 0` arm. -/
def reviewChange (df1 df2 : DataFrame) : ℚ :=
  if 0 < df1.n then ((df2.n : ℚ) - (df1.n : ℚ)) / (df1.n : ℚ) else 0

/-- Observed span of a period in days:
`(max Date - min Date).days + 1` (lines 276-277). -/
def periodDays (df : DataFrame) : ℤ :=
  listMaxZ (validDates df) - listMinZ (validDates df) + 1

/-- `daily_avg` before reporting (lines 280-281). -/
def dailyAvgRaw (df : DataFrame) : ℚ :=
  if 0 < periodDays df then (df.n : ℚ) / (periodDays df : ℚ) else 0

/-- `daily_avg_change` (line 282); the float-infinity arm (zero baseline)
falls on `else 0`, unreachable for a nonempty period with a valid date. -/
def dailyAvgChange (df1 df2 : DataFrame) : ℚ :=
  if 0 < dailyAvgRaw df1 then (dailyAvgRaw df2 - dailyAvgRaw df1) / dailyAvgRaw df1
  else 0

/-- The mean rating, 0 with the Rating column absent (lines 285-286). -/
def avgRating (df : DataFrame) : ℚ :=
  if df.hasRating then listMeanQ df.ratings else 0

/-- `rating_change = avg_rating2 - avg_rating1` (line 287). -/
def ratingChange (df1 df2 : DataFrame) : ℚ := avgRating df2 - avgRating df1

/-- `avg_sentiment` (lines 307-308). -/
def avgSentiment (df : DataFrame) : ℚ :=
  if df.hasScore then listMeanQ df.scores else 0

/-- `sentiment_change` (lines 290-314): 0 when either frame lacks the
`sentiment_label` column. -/
def sentimentChange (df1 df2 : DataFrame) : ℚ :=
  if df1.hasLabel ∧ df2.hasLabel then avgSentiment df2 - avgSentiment df1 else 0

/-- Ratio-point change for one label (lines 292-304). -/
def labelRatioChange (l : String) (df1 df2 : DataFrame) : ℚ :=
  if df1.hasLabel ∧ df2.hasLabel then labelRatio l df2 - labelRatio l df1 else 0

/-- The dominant version: `max(value_counts.items(), key=count)` picks the
value with the greatest count, the first-encountered one on ties
(lines 318-323). -/
def mainVersion (vs : List String) : Option String :=
  match firstUniques vs with
  | [] => none
  | u :: us => some (us.foldl (fun best v =>
      if vs.count best < vs.count v then v else best) u)

/-- `main_version1` as reported: `None` when either frame lacks the
`Version` column (lines 317-328). -/
def mainVersionOf (df other : DataFrame) : Option String :=
  if df.hasVersion ∧ other.hasVersion then mainVersion df.versions else none

/-- `version_changed` (lines 317-328). -/
def versionChangedB (df1 df2 : DataFrame) : Bool :=
  if df1.hasVersion ∧ df2.hasVersion then
    decide (mainVersion df1.versions ≠ mainVersion df2.versions)
  else false

/-- One summary bullet (lines 400-427); the interpolated figures of the
interpolated figures of the source strings are carried only where a claim
mentions them. -/
inductive Bullet where
  | volumeUp
  | volumeDown
  | ratingUp
  | ratingDown
  | sentimentPositive
  | sentimentNegative
  | versionUpdate (v1 v2 : Option String)
  | noSignificantDifference
deriving DecidableEq, Repr

def isVolumeBullet : Bullet → Bool
  | .volumeUp => true
  | .volumeDown => true
  | _ => false

def isRatingBullet : Bullet → Bool
  | .ratingUp => true
  | .ratingDown => true
  | _ => false

def isSentimentBullet : Bullet → Bool
  | .sentimentPositive => true
  | .sentimentNegative => true
  | _ => false

def isVersionBullet : Bullet → Bool
  | .versionUpdate _ _ => true
  | _ => false

/-- The four independently evaluated summary rules (lines 404-423),
appended in source order. -/
def summaryCore (rc rtc sc : ℚ) (vchg : Bool) (mv1 mv2 : Option String) :
    List Bullet :=
  (if 1/5 < rc then [Bullet.volumeUp]
   else if rc < -(1/5) then [Bullet.volumeDown] else []) ++
  (if 1/2 < rtc then [Bullet.ratingUp]
   else if rtc < -(1/2) then [Bullet.ratingDown] else []) ++
  (if 1/5 < sc then [Bullet.sentimentPositive]
   else if sc < -(1/5) then [Bullet.sentimentNegative] else []) ++
  (if vchg then [Bullet.versionUpdate mv1 mv2] else [])

/-- The summary construction (lines 400-427): the rule bullets, or the
no-significant-difference bullet exactly when no rule fired. -/
def buildSummary (rc rtc sc : ℚ) (vchg : Bool) (mv1 mv2 : Option String) :
    List Bullet :=
  if summaryCore rc rtc sc vchg mv1 mv2 = [] then
    [Bullet.noSignificantDifference]
  else summaryCore rc rtc sc vchg mv1 mv2

/-- The comparison record (lines 331-429).  The reported `daily_average`
values carry the `round(_, 2)` of the dictionary; the `change` fields are the
raw values the summary rules test (the rounded copies in the dictionary and the
string-formatted report fields are elided, along with the
`detailed_insights` list, which no claim inspects). -/
structure Comparison where
  days1 : ℤ
  days2 : ℤ
  totalReviews1 : ℕ
  totalReviews2 : ℕ
  dailyAverage1 : ℚ
  dailyAverage2 : ℚ
  reviewChangeVal : ℚ
  dailyAvgChangeVal : ℚ
  ratingChangeVal : ℚ
  sentimentChangeVal : ℚ
  positiveRatioChangeVal : ℚ
  negativeRatioChangeVal : ℚ
  neutralRatioChangeVal : ℚ
  mainVersion1 : Option String
  mainVersion2 : Option String
  versionChanged : Bool
  summary : List Bullet
deriving DecidableEq, Repr

/-- Builds the comparison record from two nonempty frames with already
parsed dates. -/
def mkComparison (df1 df2 : DataFrame) : Comparison :=
  { days1 := periodDays df1
    days2 := periodDays df2
    totalReviews1 := df1.n
    totalReviews2 := df2.n
    dailyAverage1 := roundTo2 (dailyAvgRaw df1)
    dailyAverage2 := roundTo2 (dailyAvgRaw df2)
    reviewChangeVal := reviewChange df1 df2
    dailyAvgChangeVal := dailyAvgChange df1 df2
    ratingChangeVal := ratingChange df1 df2
    sentimentChangeVal := sentimentChange df1 df2
    positiveRatioChangeVal := labelRatioChange "positive" df1 df2
    negativeRatioChangeVal := labelRatioChange "negative" df1 df2
    neutralRatioChangeVal := labelRatioChange "neutral" df1 df2
    mainVersion1 := mainVersionOf df1 df2
    mainVersion2 := mainVersionOf df2 df1
    versionChanged := versionChangedB df1 df2
    summary := buildSummary (reviewChange df1 df2) (ratingChange df1 df2)
      (sentimentChange df1 df2) (versionChangedB df1 df2)
      (mainVersionOf df1 df2) (mainVersionOf df2 df1) }

/-- Result of `compare_time_periods`: the degenerate
`{"comparison_result": "無法比較，資料不足"}` marker for an empty input
frame, or the full comparison. -/
inductive CompareOut where
  | insufficientData
  | result (c : Comparison)
deriving DecidableEq, Repr

/-- The result arm of `compare_time_periods` on nonempty frames with
parsed dates.  Three failure paths of the source are modelled by
`.error`, in source evaluation order:
(a) a frame whose dates are all NaT makes the Date-column minimum NaT,
and `NaT.strftime` at the report dictionary (lines 334-341) raises;
(b) a frame with a `sentiment_label` column but no `sentiment_score`
column makes the `analyze_sentiment_trend` calls of the
detailed-insights stage (lines 486-487) raise a KeyError at trend
line 128;
(c) a frame without a `sentiment_label` column makes those calls return
the degenerate `{"sentiment_trend": {}}` (trend lines 118-120), and the
unconditional `sentiment_trend1[trend_direction]` lookup of line 489
then raises a KeyError. -/
def compareResultE (d1 d2 : DataFrame) : Except String CompareOut :=
  if validDates d1 = [] ∨ validDates d2 = [] then
    .error "ValueError: NaTType does not support strftime"
  else if (d1.hasLabel ∧ d1.hasScore = false) ∨
          (d2.hasLabel ∧ d2.hasScore = false) then
    .error "KeyError: sentiment_score"
  else if d1.hasLabel = false ∨ d2.hasLabel = false then
    .error "KeyError: trend_direction"
  else
    .ok (.result (mkComparison d1 d2))

def compareTimePeriods (parse : String → Option ℤ) (df1 df2 : DataFrame) :
    Except String CompareOut × DataFrame × DataFrame :=
  if df1.n = 0 ∨ df2.n = 0 then (.ok .insufficientData, df1, df2)
  else (compareResultE (coerceDates parse df1) (coerceDates parse df2),
        coerceDates parse df1, coerceDates parse df2)

/-! ## The comparison endpoint (`compare_periods`, api.py lines 111-235) -/

/-- Outcome of `POST /api/comparison` after the two period frames have
been filtered: the `status: warning` insufficient-data payload (lines
132-139), a success carrying the comparison, or the HTTP-500 path for a
raised exception. -/
inductive ApiResponse where
  | warningInsufficient (count1 count2 : ℕ)
  | success (out : CompareOut)
  | failure (msg : String)
deriving DecidableEq, Repr

def isWarningResponse : ApiResponse → Bool
  | .warningInsufficient _ _ => true
  | _ => false

/-- The endpoint body from the two filtered frames on: the 10-record
admission gate (the literal `10` of line 132), then per-period batch
classification, then the comparison. -/
def comparePeriods (parse : String → Option ℤ) (useTransformers : Bool)
    (threshold : ℚ) (model : String → Except String (String × ℚ))
    (vader : String → Except String ℚ) (perm1 perm2 : List Nat)
    (df1 df2 : DataFrame) : ApiResponse :=
  if df1.n < 10 ∨ df2.n < 10 then .warningInsufficient df1.n df2.n
  else
    let c1 := analyzeDataframe useTransformers threshold model vader perm1 df1
    let c2 := analyzeDataframe useTransformers threshold model vader perm2 df2
    match (compareTimePeriods parse c1 c2).1 with
    | .ok out => .success out
    | .error e => .failure e

/-! ## Concrete frames and parameters used by witnesses and
counterexamples -/

/-- A date parser that parses nothing (the theorems about coercion hold
for every parser). -/
def parseNone : String → Option ℤ := fun _ => none

/-- A two-row classified frame spanning three calendar days. -/
def dfTwo : DataFrame :=
  { dates := .dt [some 0, some 2]
    ratings := [5, 4], hasRating := true
    versions := ["1.0", "1.0"], hasVersion := true
    labels := ["positive", "negative"], hasLabel := true
    scores := [1/2, -(1/2)], hasScore := true
    titles := [some "good", none], contents := [some "yes", some "bad"] }

/-- A one-row classified frame on a single later day, different version. -/
def dfOne : DataFrame :=
  { dates := .dt [some 5]
    ratings := [3], hasRating := true
    versions := ["1.1"], hasVersion := true
    labels := ["neutral"], hasLabel := true
    scores := [0], hasScore := true
    titles := [none], contents := [none] }

/-- An empty frame that still carries the classification columns
(filtering an already-classified frame keeps its columns). -/
def dfEmptyClassified : DataFrame :=
  { dates := .dt []
    ratings := [], hasRating := true
    versions := [], hasVersion := true
    labels := [], hasLabel := true
    scores := [], hasScore := true
    titles := [], contents := [] }

/-- A frame carrying `sentiment_label` and `Rating` but no
`sentiment_score` column, with two rows. -/
def dfNoScore : DataFrame :=
  { dates := .dt [some 0, some 1]
    ratings := [5, 4], hasRating := true
    versions := ["1.0", "1.0"], hasVersion := true
    labels := ["positive", "negative"], hasLabel := true
    scores := [], hasScore := false
    titles := [none, none], contents := [none, none] }

/-- A one-row frame whose Date column has not been datetime-coerced. -/
def dfRawDates : DataFrame :=
  { dates := .raw ["2025-01-01"]
    ratings := [5], hasRating := true
    versions := ["1.0"], hasVersion := true
    labels := ["positive"], hasLabel := true
    scores := [1/2], hasScore := true
    titles := [none], contents := [some "good"] }

/-! ## Helper lemmas -/

theorem coerceDates_dtTyped (parse : String → Option ℤ) (df : DataFrame)
    (h : df.dtTyped = true) : coerceDates parse df = df := by
  unfold coerceDates
  cases hd : df.dates with
  | raw vs =>
      exfalso
      unfold DataFrame.dtTyped at h
      rw [hd] at h
      exact Bool.noConfusion h
  | dt vs => rfl

theorem coerceDates_hasScore (parse : String → Option ℤ) (df : DataFrame) :
    (coerceDates parse df).hasScore = df.hasScore := by
  unfold coerceDates
  cases hd : df.dates with
  | raw vs => rfl
  | dt vs => rfl

theorem countLabel_total (ls : List String)
    (h : ∀ l ∈ ls, l = "positive" ∨ l = "neutral" ∨ l = "negative") :
    countLabel "positive" ls + countLabel "negative" ls +
      countLabel "neutral" ls = ls.length := by
  induction ls with
  | nil => rfl
  | cons x xs ih =>
      have hx := h x (List.mem_cons_self _ _)
      have hxs := ih (fun l hl => h l (List.mem_cons_of_mem _ hl))
      rcases hx with h1 | h1 | h1 <;> subst h1 <;>
        simp [countLabel, List.filter_cons] at hxs ⊢ <;> omega

theorem le_foldl_max (x : ℤ) (xs : List ℤ) : x ≤ xs.foldl max x := by
  induction xs generalizing x with
  | nil => exact le_refl x
  | cons y ys ih => exact le_trans (le_max_left x y) (ih (max x y))

theorem foldl_min_le (x : ℤ) (xs : List ℤ) : xs.foldl min x ≤ x := by
  induction xs generalizing x with
  | nil => exact le_refl x
  | cons y ys ih => exact le_trans (ih (min x y)) (min_le_left x y)

theorem listMinZ_le_listMaxZ (l : List ℤ) (h : l ≠ []) :
    listMinZ l ≤ listMaxZ l := by
  cases l with
  | nil => exact absurd rfl h
  | cons x xs => exact le_trans (foldl_min_le x xs) (le_foldl_max x xs)

theorem roundHalfEven_intCast (k : ℤ) : roundHalfEven (k : ℚ) = k := by
  unfold roundHalfEven
  rw [Int.floor_intCast]
  norm_num

theorem roundTo2_natCast (n : ℕ) : roundTo2 (n : ℚ) = (n : ℚ) := by
  unfold roundTo2
  have h : ((n : ℚ)) * 100 = (((n * 100 : ℕ) : ℤ) : ℚ) := by push_cast; ring
  rw [h, roundHalfEven_intCast]
  push_cast
  ring

/-! ## Summary-rule lemmas -/

theorem summaryCore_any_volume (rc rtc sc : ℚ) (vchg : Bool)
    (mv1 mv2 : Option String) :
    (summaryCore rc rtc sc vchg mv1 mv2).any isVolumeBullet = true ↔
      (1/5 < rc ∨ rc < -(1/5)) := by
  unfold summaryCore
  split_ifs <;> simp_all [isVolumeBullet]

theorem summaryCore_any_rating (rc rtc sc : ℚ) (vchg : Bool)
    (mv1 mv2 : Option String) :
    (summaryCore rc rtc sc vchg mv1 mv2).any isRatingBullet = true ↔
      (1/2 < rtc ∨ rtc < -(1/2)) := by
  unfold summaryCore
  split_ifs <;> simp_all [isRatingBullet]

theorem summaryCore_any_sentiment (rc rtc sc : ℚ) (vchg : Bool)
    (mv1 mv2 : Option String) :
    (summaryCore rc rtc sc vchg mv1 mv2).any isSentimentBullet = true ↔
      (1/5 < sc ∨ sc < -(1/5)) := by
  unfold summaryCore
  split_ifs <;> simp_all [isSentimentBullet]

theorem summaryCore_any_version (rc rtc sc : ℚ) (vchg : Bool)
    (mv1 mv2 : Option String) :
    (summaryCore rc rtc sc vchg mv1 mv2).any isVersionBullet = true ↔
      vchg = true := by
  unfold summaryCore
  split_ifs <;> simp_all [isVersionBullet]

theorem summaryCore_empty_iff (rc rtc sc : ℚ) (vchg : Bool)
    (mv1 mv2 : Option String) :
    summaryCore rc rtc sc vchg mv1 mv2 = [] ↔
      ¬(1/5 < rc ∨ rc < -(1/5) ∨ 1/2 < rtc ∨ rtc < -(1/2) ∨
        1/5 < sc ∨ sc < -(1/5) ∨ vchg = true) := by
  unfold summaryCore
  split_ifs <;> simp_all

theorem summaryCore_no_noDiff (rc rtc sc : ℚ) (vchg : Bool)
    (mv1 mv2 : Option String) :
    Bullet.noSignificantDifference ∉ summaryCore rc rtc sc vchg mv1 mv2 := by
  unfold summaryCore
  split_ifs <;> simp

/-- The no-difference bullet satisfies none of the four rule
predicates, so rule-bullet presence factors through `summaryCore`;
but a fired rule bullet never survives in the empty case. -/
theorem buildSummary_any (p : Bullet → Bool)
    (hp : p Bullet.noSignificantDifference = false) (rc rtc sc : ℚ)
    (vchg : Bool) (mv1 mv2 : Option String) :
    (buildSummary rc rtc sc vchg mv1 mv2).any p =
      (summaryCore rc rtc sc vchg mv1 mv2).any p := by
  unfold buildSummary
  by_cases he : summaryCore rc rtc sc vchg mv1 mv2 = []
  · rw [if_pos he, he]
    simp [hp]
  · rw [if_neg he]

theorem buildSummary_noDiff_iff (rc rtc sc : ℚ) (vchg : Bool)
    (mv1 mv2 : Option String) :
    Bullet.noSignificantDifference ∈ buildSummary rc rtc sc vchg mv1 mv2 ↔
      summaryCore rc rtc sc vchg mv1 mv2 = [] := by
  unfold buildSummary
  by_cases he : summaryCore rc rtc sc vchg mv1 mv2 = []
  · rw [if_pos he]
    simp [he]
  · rw [if_neg he]
    simp [he, summaryCore_no_noDiff rc rtc sc vchg mv1 mv2]

/-! ## Scheduler lemmas -/

theorem attachAll_length (rs : List (Nat × SR)) (acc : List (Option SR)) :
    (attachAll rs acc).length = acc.length := by
  induction rs generalizing acc with
  | nil => rfl
  | cons p rs ih =>
      show (attachAll rs (acc.set p.1 (some p.2))).length = acc.length
      rw [ih, List.length_set]

/-- Attachment writes at each index the value belonging to that index:
when every collected pair
carries the value determined by its index, the write order is
irrelevant. -/
theorem attachAll_getElem (f : Nat → SR) (rs : List (Nat × SR))
    (hf : ∀ p ∈ rs, p.2 = f p.1) (acc : List (Option SR)) (i : Nat)
    (hi : i < acc.length) :
    (i ∈ rs.map Prod.fst → (attachAll rs acc)[i]? = some (some (f i))) ∧
    (i ∉ rs.map Prod.fst → (attachAll rs acc)[i]? = acc[i]?) := by
  induction rs generalizing acc with
  | nil =>
      refine ⟨fun h => ?_, fun _ => rfl⟩
      simp at h
  | cons p rs ih =>
      have hr : p.2 = f p.1 := hf p (List.mem_cons_self _ _)
      have hrest : ∀ q ∈ rs, q.2 = f q.1 := fun q hq =>
        hf q (List.mem_cons_of_mem _ hq)
      have hlen : i < (acc.set p.1 (some p.2)).length := by
        rw [List.length_set]; exact hi
      have step : attachAll (p :: rs) acc =
          attachAll rs (acc.set p.1 (some p.2)) := rfl
      have IH := ih hrest (acc.set p.1 (some p.2)) hlen
      rw [step]
      constructor
      · intro hmem
        by_cases hin : i ∈ rs.map Prod.fst
        · exact IH.1 hin
        · have hmem' : i = p.1 ∨ i ∈ rs.map Prod.fst := by
            rw [List.map_cons] at hmem
            exact List.mem_cons.mp hmem
          have hij : i = p.1 := by
            rcases hmem' with h | h
            · exact h
            · exact absurd h hin
          subst hij
          rw [IH.2 hin, List.getElem?_set_self hi, hr]
      · intro hnot
        have hne : i ≠ p.1 := by
          intro h
          exact hnot (by simp [h])
        have hnin : i ∉ rs.map Prod.fst := by
          intro h
          exact hnot (by simp [h])
        rw [IH.2 hnin, List.getElem?_set_ne (Ne.symm hne)]

theorem scheduleBatch_length (work : Nat → Except String SR)
    (perm : List Nat) (n : Nat) :
    (scheduleBatch work perm n).length = n := by
  unfold scheduleBatch
  rw [attachAll_length, List.length_replicate]

/-- Any completion order that covers row `i` leaves the (absorbed) result
belonging to row `i` in the cell of row `i`. -/
theorem scheduleBatch_getElem (work : Nat → Except String SR)
    (perm : List Nat) (n i : Nat) (hi : i < n) (hmem : i ∈ perm) :
    (scheduleBatch work perm n)[i]? = some (some (absorbResult (work i))) := by
  unfold scheduleBatch
  have hf : ∀ p ∈ perm.map (fun j => (j, absorbResult (work j))),
      p.2 = (fun j => absorbResult (work j)) p.1 := by
    intro p hp
    obtain ⟨j, _, rfl⟩ := List.mem_map.mp hp
    rfl
  refine (attachAll_getElem (fun j => absorbResult (work j)) _ hf
    (List.replicate n none) i (by simpa using hi)).1 ?_
  simpa [List.map_map, Function.comp] using hmem

/-! ## Claim C1 -/

/-- C1: a comparison request whose two filtered periods both hold fewer
than 10 records gets the insufficient-data warning payload, not a full
comparison; moreover the literal 10-record test of api.py line 132 is the
single admission gate: the response is the warning payload exactly when
one of the periods falls below 10 records. -/
theorem claim_C1_admission_gate (parse : String → Option ℤ)
    (useTransformers : Bool) (threshold : ℚ)
    (model : String → Except String (String × ℚ))
    (vader : String → Except String ℚ) (perm1 perm2 : List Nat)
    (df1 df2 : DataFrame) :
    (df1.n < 10 ∧ df2.n < 10 →
      comparePeriods parse useTransformers threshold model vader perm1 perm2
        df1 df2 = .warningInsufficient df1.n df2.n) ∧
    (isWarningResponse (comparePeriods parse useTransformers threshold model
        vader perm1 perm2 df1 df2) = true ↔ (df1.n < 10 ∨ df2.n < 10)) := by
  unfold comparePeriods
  by_cases h : df1.n < 10 ∨ df2.n < 10
  · rw [if_pos h]
    exact ⟨fun _ => rfl, by simp [isWarningResponse, h]⟩
  · rw [if_neg h]
    refine ⟨fun hb => absurd (Or.inl hb.1) h, ?_⟩
    rcases hc : (compareTimePeriods parse
        (analyzeDataframe useTransformers threshold model vader perm1 df1)
        (analyzeDataframe useTransformers threshold model vader perm2 df2)).1
      with e | out <;>
      simp [hc, isWarningResponse, h]

theorem claim_C1_admission_gate_witness :
    comparePeriods parseNone false (3/20) (fun _ => Except.error "m")
      (fun _ => Except.ok 1) [0, 1] [0] dfTwo dfOne =
      .warningInsufficient dfTwo.n dfOne.n ∧
    (isWarningResponse (comparePeriods parseNone false (3/20)
      (fun _ => Except.error "m") (fun _ => Except.ok 1) [0, 1] [0]
      dfTwo dfOne) = true ↔ (dfTwo.n < 10 ∨ dfOne.n < 10)) :=
  ⟨(claim_C1_admission_gate parseNone false (3/20) (fun _ => Except.error "m")
      (fun _ => Except.ok 1) [0, 1] [0] dfTwo dfOne).1 (by decide),
   (claim_C1_admission_gate parseNone false (3/20) (fun _ => Except.error "m")
      (fun _ => Except.ok 1) [0, 1] [0] dfTwo dfOne).2⟩

/-! ## Claim C2 -/

/-- C2: for every completion order of the worker pool (any permutation of
the row indices), batch classification keeps the row count, and the
result attached at row `i` is exactly the one `analyze_row` computes from
the title and content of row `i` itself — attachment is by row identity, not
completion order. -/
theorem claim_C2_batch_identity (useTransformers : Bool) (threshold : ℚ)
    (model : String → Except String (String × ℚ))
    (vader : String → Except String ℚ) (perm : List Nat) (df : DataFrame)
    (hWF : df.WF) (hperm : perm.Perm (List.range df.n)) :
    (analyzeDataframe useTransformers threshold model vader perm df).n = df.n ∧
    (analyzeDataframe useTransformers threshold model vader perm
      df).labels.length = df.n ∧
    (analyzeDataframe useTransformers threshold model vader perm
      df).scores.length = df.n ∧
    ∀ i, i < df.n →
      (attachedResults useTransformers threshold model vader perm df)[i]? =
        some (some (analyzeRow useTransformers threshold model vader
          (df.titles.getD i none) (df.contents.getD i none))) := by
  have hmem : ∀ i, i < df.n → i ∈ perm := fun i hi =>
    (hperm.mem_iff).mpr (List.mem_range.mpr hi)
  have hatt : ∀ i, i < df.n →
      (attachedResults useTransformers threshold model vader perm df)[i]? =
        some (some (analyzeRow useTransformers threshold model vader
          (df.titles.getD i none) (df.contents.getD i none))) := by
    intro i hi
    unfold attachedResults
    rw [scheduleBatch_getElem _ _ _ _ hi (hmem i hi)]
    rfl
  by_cases h0 : df.n = 0
  · unfold analyzeDataframe
    rw [if_pos h0]
    exact ⟨rfl, hWF.2.2.1, hWF.2.2.2.1, hatt⟩
  · unfold analyzeDataframe
    rw [if_neg h0]
    refine ⟨rfl, ?_, ?_, hatt⟩ <;>
      simp [List.length_map, attachedResults, scheduleBatch_length]

theorem claim_C2_batch_identity_witness :
    (analyzeDataframe false (3/20) (fun _ => Except.error "m")
      (fun _ => Except.ok 1) [1, 0] dfTwo).n = dfTwo.n ∧
    (attachedResults false (3/20) (fun _ => Except.error "m")
      (fun _ => Except.ok 1) [1, 0] dfTwo)[0]? =
      some (some (analyzeRow false (3/20) (fun _ => Except.error "m")
        (fun _ => Except.ok 1) (dfTwo.titles.getD 0 none)
        (dfTwo.contents.getD 0 none))) :=
  ⟨(claim_C2_batch_identity false (3/20) (fun _ => Except.error "m")
      (fun _ => Except.ok 1) [1, 0] dfTwo ⟨rfl, rfl, rfl, rfl, rfl, rfl⟩
      (by decide)).1,
   (claim_C2_batch_identity false (3/20) (fun _ => Except.error "m")
      (fun _ => Except.ok 1) [1, 0] dfTwo ⟨rfl, rfl, rfl, rfl, rfl, rfl⟩
      (by decide)).2.2.2 0 (by decide)⟩

/-! ## Claim C8 -/

/-- C8: a unit of work that raises is absorbed: its row gets the sentinel
neutral result, every other row keeps the result of its own unit, and the
batch still returns (the collection loop of analyze_dataframe lines
140-149); independently, a strategy back-end that raises inside
`analyze_text` (lines 86-88) yields the sentinel for that one text. -/
theorem claim_C8_failure_isolation :
    (∀ (work : Nat → Except String SR) (perm : List Nat) (n j : Nat),
      perm.Perm (List.range n) → j < n →
      (∃ e, work j = Except.error e) →
      (scheduleBatch work perm n)[j]? = some (some sentinelSR) ∧
      ∀ i, i < n →
        (scheduleBatch work perm n)[i]? =
          some (some (absorbResult (work i)))) ∧
    (∀ (useTransformers : Bool) (threshold : ℚ)
      (model : String → Except String (String × ℚ))
      (vader : String → Except String ℚ) (s : String), s ≠ "" →
      ((useTransformers = true ∧ ∃ e, model (s.take 512) = Except.error e) ∨
       (useTransformers = false ∧ ∃ e, vader s = Except.error e)) →
      analyzeText useTransformers threshold model vader (.str s) =
        sentinelSR) := by
  constructor
  · intro work perm n j hperm hj ⟨e, he⟩
    have hmem : ∀ i, i < n → i ∈ perm := fun i hi =>
      (hperm.mem_iff).mpr (List.mem_range.mpr hi)
    refine ⟨?_, fun i hi => scheduleBatch_getElem _ _ _ _ hi (hmem i hi)⟩
    rw [scheduleBatch_getElem _ _ _ _ hj (hmem j hj), he]
    rfl
  · intro b t model vader s hs hfail
    rcases hfail with ⟨hb, e, he⟩ | ⟨hb, e, he⟩ <;>
      subst hb <;> simp [analyzeText, hs, he]

theorem claim_C8_failure_isolation_witness :
    (scheduleBatch (fun i => if i = 1 then Except.error "boom"
        else Except.ok ⟨"positive", 1⟩) [2, 0, 1] 3)[1]? =
      some (some sentinelSR) ∧
    analyzeText false (3/20) (fun _ => Except.ok ("POSITIVE", 1))
      (fun _ => Except.error "vader failed") (.str "hello") = sentinelSR :=
  ⟨(claim_C8_failure_isolation.1
      (fun i => if i = 1 then Except.error "boom"
        else Except.ok ⟨"positive", 1⟩) [2, 0, 1] 3 1 (by decide) (by decide)
      ⟨"boom", rfl⟩).1,
   claim_C8_failure_isolation.2 false (3/20)
      (fun _ => Except.ok ("POSITIVE", 1)) (fun _ => Except.error "vader failed")
      "hello" (by decide) (Or.inr ⟨rfl, "vader failed", rfl⟩)⟩

/-! ## Claim C3 -/

/-- C3 counterexample: under the model strategy the label is only
lower-cased, never mapped into {positive, neutral, negative}; an external
model answering with the vocabulary "LABEL_1" makes `analyze_text` return
the label "label_1", outside the claimed set. -/
theorem claim_C3_label_set_cex :
    (analyzeText true (3/20) (fun _ => Except.ok ("LABEL_1", (9 : ℚ)/10))
      (fun _ => Except.ok 0) (.str "good")).label ∉
      (["positive", "neutral", "negative"] : List String) := by
  decide

/-- C3 as amended: under the lexicon strategy the label always lies in
{positive, neutral, negative}; empty, absent and non-string inputs yield
exactly {neutral, 0.5} under both strategies; under the model strategy
the label is the external model label lower-cased, hence in the set
whenever the model vocabulary lower-cases into it.  (A numeric
score is returned in every case by construction of `SR`.) -/
theorem claim_C3_label_set_amended :
    (∀ (threshold : ℚ) (model : String → Except String (String × ℚ))
       (vader : String → Except String ℚ) (inp : TextInput),
       (analyzeText false threshold model vader inp).label ∈
         (["positive", "neutral", "negative"] : List String)) ∧
    (∀ (useTransformers : Bool) (threshold : ℚ)
       (model : String → Except String (String × ℚ))
       (vader : String → Except String ℚ),
       analyzeText useTransformers threshold model vader .noText =
         sentinelSR ∧
       analyzeText useTransformers threshold model vader .nonString =
         sentinelSR ∧
       analyzeText useTransformers threshold model vader (.str "") =
         sentinelSR) ∧
    (∀ (threshold : ℚ) (model : String → Except String (String × ℚ))
       (vader : String → Except String ℚ) (inp : TextInput),
       (∀ s lab sc, model s = Except.ok (lab, sc) →
          lowerStr lab ∈ (["positive", "neutral", "negative"] : List String)) →
       (analyzeText true threshold model vader inp).label ∈
         (["positive", "neutral", "negative"] : List String)) := by
  refine ⟨?_, ?_, ?_⟩
  · intro t model vader inp
    cases inp with
    | noText => simp [analyzeText, sentinelSR]
    | nonString => simp [analyzeText, sentinelSR]
    | str s =>
        by_cases hs : s = ""
        · simp [analyzeText, hs, sentinelSR]
        · rcases hv : vader s with e | c
          · simp [analyzeText, hs, hv, sentinelSR]
          · simp only [analyzeText, hs, hv, if_false, if_neg,
              Bool.false_eq_true]
            split_ifs <;> simp
  · intro b t model vader
    exact ⟨rfl, rfl, by cases b <;> simp [analyzeText, sentinelSR]⟩
  · intro t model vader inp hm
    cases inp with
    | noText => simp [analyzeText, sentinelSR]
    | nonString => simp [analyzeText, sentinelSR]
    | str s =>
        by_cases hs : s = ""
        · simp [analyzeText, hs, sentinelSR]
        · rcases hmod : model (s.take 512) with e | p
          · simp [analyzeText, hs, hmod, sentinelSR]
          · have := hm (s.take 512) p.1 p.2 (by rw [hmod])
            simpa [analyzeText, hs, hmod] using this

theorem claim_C3_label_set_amended_witness :
    (analyzeText false (3/20) (fun _ => Except.error "m")
      (fun _ => Except.ok 1) (.str "great")).label ∈
      (["positive", "neutral", "negative"] : List String) ∧
    (analyzeText true (3/20) (fun _ => Except.ok ("POSITIVE", (9 : ℚ)/10))
      (fun _ => Except.ok 0) (.str "great")).label ∈
      (["positive", "neutral", "negative"] : List String) :=
  ⟨claim_C3_label_set_amended.1 (3/20) (fun _ => Except.error "m")
      (fun _ => Except.ok 1) (.str "great"),
   claim_C3_label_set_amended.2.2 (3/20)
      (fun _ => Except.ok ("POSITIVE", (9 : ℚ)/10)) (fun _ => Except.ok 0)
      (.str "great") (fun _ _ _ h => by
        simp only [Except.ok.injEq, Prod.mk.injEq] at h
        rw [← h.1]
        decide)⟩

/-! ## Claim C5 -/

/-- C5 counterexample: the volume operation is not free of frame effects —
on a frame whose Date column is not yet datetime-typed, the in-place
coercion of line 38 changes the Date column of the caller. -/
theorem claim_C5_purity_cex :
    (analyzeReviewVolume parseNone dfRawDates).2 ≠ dfRawDates := by
  decide

/-- C5 as amended: the result of each statistics operation depends only on its
arguments (all are embedded as pure functions of the frame), and on a
frame whose Date column is already datetime-typed — as the cleaner
guarantees in the pipeline — volume, trend, topic analysis and the period
comparison leave the frame of the caller unchanged; the in-place Date coercion
is a frame effect reachable only for a raw-typed Date column.
(`analyze_sentiment_distribution` assigns to no column and is embedded
without a frame output.) -/
theorem claim_C5_purity_amended (parse : String → Option ℤ)
    (df df2 : DataFrame) (h1 : df.dtTyped = true) (h2 : df2.dtTyped = true) :
    (analyzeReviewVolume parse df).2 = df ∧
    (analyzeSentimentTrend parse df).2 = df ∧
    (analyzeTopics 20 df).2 = df ∧
    (compareTimePeriods parse df df2).2 = (df, df2) := by
  have hc := coerceDates_dtTyped parse df h1
  have hc2 := coerceDates_dtTyped parse df2 h2
  refine ⟨?_, ?_, ?_, ?_⟩
  · unfold analyzeReviewVolume
    split_ifs
    · rfl
    · exact hc
  · unfold analyzeSentimentTrend
    split_ifs
    · rfl
    · exact hc
  · unfold analyzeTopics
    split_ifs <;> rfl
  · unfold compareTimePeriods
    split_ifs
    · rfl
    · rw [hc, hc2]

theorem claim_C5_purity_amended_witness :
    (analyzeReviewVolume parseNone dfTwo).2 = dfTwo ∧
    (analyzeSentimentTrend parseNone dfTwo).2 = dfTwo ∧
    (analyzeTopics 20 dfTwo).2 = dfTwo ∧
    (compareTimePeriods parseNone dfTwo dfOne).2 = (dfTwo, dfOne) :=
  claim_C5_purity_amended parseNone dfTwo dfOne rfl rfl

/-! ## Claim C6 -/

/-- C6 counterexample: on an empty classified frame the distribution
operation returns the degenerate empty mapping, which carries no ratio
fields at all — not three zero ratios as claimed. -/
theorem claim_C6_ratio_sum_cex :
    distRatios (analyzeSentimentDistribution dfEmptyClassified) ≠
      some (0, 0, 0) := by
  decide

/-- C6 as amended: for a nonempty classified frame (labels drawn from
{positive, neutral, negative}, score column present) the three reported
ratios sum to exactly 1; an empty frame instead yields the degenerate
empty-distribution result, which carries no ratio fields. -/
theorem claim_C6_ratio_sum_amended (df : DataFrame) (hWF : df.WF)
    (hL : df.hasLabel = true) (hS : df.hasScore = true)
    (hlab : ∀ l ∈ df.labels, l = "positive" ∨ l = "neutral" ∨ l = "negative")
    (hn : 0 < df.n) :
    distRatios (analyzeSentimentDistribution df) =
      some (labelRatio "positive" df, labelRatio "negative" df,
        labelRatio "neutral" df) ∧
    labelRatio "positive" df + labelRatio "negative" df +
      labelRatio "neutral" df = 1 := by
  have hcond : ¬(df.n = 0 ∨ df.hasLabel = false) := by
    push_neg
    exact ⟨Nat.pos_iff_ne_zero.mp hn, by simp [hL]⟩
  have hstep : corrStep df =
      .ok (if df.hasRating ∧ 1 < df.n then corrSigned df.ratings df.scores
           else 0) := by
    unfold corrStep
    split_ifs with h1 <;> simp_all
  constructor
  · unfold analyzeSentimentDistribution
    rw [if_neg hcond, hstep]
    rfl
  · have hne : (df.n : ℚ) ≠ 0 := Nat.cast_ne_zero.mpr (Nat.pos_iff_ne_zero.mp hn)
    have hcount := countLabel_total df.labels hlab
    rw [hWF.2.2.1] at hcount
    unfold labelRatio
    rw [if_pos hn, if_pos hn, if_pos hn, div_add_div_same, div_add_div_same,
      ← Nat.cast_add, ← Nat.cast_add, hcount]
    exact div_self hne

theorem claim_C6_ratio_sum_amended_witness :
    distRatios (analyzeSentimentDistribution dfTwo) =
      some (labelRatio "positive" dfTwo, labelRatio "negative" dfTwo,
        labelRatio "neutral" dfTwo) ∧
    labelRatio "positive" dfTwo + labelRatio "negative" dfTwo +
      labelRatio "neutral" dfTwo = 1 :=
  claim_C6_ratio_sum_amended dfTwo ⟨rfl, rfl, rfl, rfl, rfl, rfl⟩ rfl rfl
    (by decide) (by decide)

/-! ## Claim C9 -/

/-- C9: the correlation guard of line 93 checks `Rating` presence and the
row count but not `sentiment_score` presence; on a frame with labels and
ratings but no score column the operation raises (KeyError) instead of
degrading the correlation to 0 as the specification requires. -/
theorem claim_C9_missing_score_column_bug :
    analyzeSentimentDistribution dfNoScore =
      Except.error "KeyError: [sentiment_score] not in index" := rfl

/-! ## Claim C7 -/

/-- C7 counterexample: on an empty classified frame the trend operation
returns the degenerate empty result, which carries no direction field at
all — not the direction "stable" as claimed for the fewer-than-two-buckets
case. -/
theorem claim_C7_trend_direction_cex :
    trendDirection (analyzeSentimentTrend parseNone dfEmptyClassified).1 ≠
      some TrendDirection.stable := by
  decide

/-- C7 as amended: for a nonempty classified frame, the reported direction
is "up" exactly when the least-squares slope over bucket index (ignoring
NaN buckets) exceeds +0.01, "down" exactly when it is below −0.01 and
"stable" otherwise (both boundaries included in "stable"), and with fewer
than two valid buckets the slope is 0; an empty frame instead yields the
degenerate empty-trend result, which carries no direction. -/
theorem claim_C7_trend_direction_amended (parse : String → Option ℤ)
    (df : DataFrame) (hn : 0 < df.n) (hL : df.hasLabel = true)
    (hS : df.hasScore = true) :
    (analyzeSentimentTrend parse df).1 =
      .ok (.trend (trendSlope (coerceDates parse df))
        (directionOf (trendSlope (coerceDates parse df)))) ∧
    (∀ s : ℚ, directionOf s = .up ↔ 1/100 < s) ∧
    (∀ s : ℚ, directionOf s = .down ↔ s < -(1/100)) ∧
    (∀ s : ℚ, directionOf s = .stable ↔ ¬(1/100 < s) ∧ ¬(s < -(1/100))) ∧
    ((validBuckets (coerceDates parse df)).length < 2 →
      trendSlope (coerceDates parse df) = 0) := by
  have hcond : ¬(df.n = 0 ∨ df.hasLabel = false) := by
    push_neg
    exact ⟨Nat.pos_iff_ne_zero.mp hn, by simp [hL]⟩
  have hSc : (coerceDates parse df).hasScore = true := by
    rw [coerceDates_hasScore]
    exact hS
  refine ⟨?_, ?_, ?_, ?_, ?_⟩
  · unfold analyzeSentimentTrend
    rw [if_neg hcond]
    unfold trendResultE
    rw [if_neg (by simp [hSc])]
  · intro s
    unfold directionOf
    split_ifs <;> simp_all
  · intro s
    unfold directionOf
    split_ifs <;> simp_all
    linarith
  · intro s
    unfold directionOf
    split_ifs <;> simp_all
  · intro h
    unfold trendSlope
    split_ifs with hb hv
    · exfalso
      omega
    · rfl
    · rfl

theorem claim_C7_trend_direction_amended_witness :
    (analyzeSentimentTrend parseNone dfTwo).1 =
      .ok (.trend (trendSlope (coerceDates parseNone dfTwo))
        (directionOf (trendSlope (coerceDates parseNone dfTwo)))) ∧
    (directionOf 1 = TrendDirection.up ↔ 1/100 < (1 : ℚ)) :=
  ⟨(claim_C7_trend_direction_amended parseNone dfTwo (by decide) rfl rfl).1,
   (claim_C7_trend_direction_amended parseNone dfTwo (by decide) rfl
      rfl).2.1 1⟩

/-! ## Claims C4 and C10: the comparison path -/

/-- Shared success lemma: for nonempty classified periods (both sentiment
columns present, as batch classification leaves them) with parsed dates
and at least one valid date each, the comparison returns the full
record. -/
theorem compareTimePeriods_ok (parse : String → Option ℤ)
    (df1 df2 : DataFrame) (h1 : 0 < df1.n) (h2 : 0 < df2.n)
    (hd1 : df1.dtTyped = true) (hd2 : df2.dtTyped = true)
    (hv1 : validDates df1 ≠ []) (hv2 : validDates df2 ≠ [])
    (hL1 : df1.hasLabel = true) (hS1 : df1.hasScore = true)
    (hL2 : df2.hasLabel = true) (hS2 : df2.hasScore = true) :
    (compareTimePeriods parse df1 df2).1 =
      .ok (.result (mkComparison df1 df2)) := by
  have hno : ¬((df1.hasLabel ∧ df1.hasScore = false) ∨
      (df2.hasLabel ∧ df2.hasScore = false)) := by
    rintro (⟨_, hsf⟩ | ⟨_, hsf⟩)
    · rw [hS1] at hsf
      exact Bool.noConfusion hsf
    · rw [hS2] at hsf
      exact Bool.noConfusion hsf
  have hnl : ¬(df1.hasLabel = false ∨ df2.hasLabel = false) := by
    rintro (h | h)
    · rw [hL1] at h
      exact Bool.noConfusion h
    · rw [hL2] at h
      exact Bool.noConfusion h
  have hne : ¬(df1.n = 0 ∨ df2.n = 0) := by
    push_neg
    exact ⟨Nat.pos_iff_ne_zero.mp h1, Nat.pos_iff_ne_zero.mp h2⟩
  have hvv : ¬(validDates df1 = [] ∨ validDates df2 = []) := by
    push_neg
    exact ⟨hv1, hv2⟩
  unfold compareTimePeriods
  rw [if_neg hne, coerceDates_dtTyped parse df1 hd1,
    coerceDates_dtTyped parse df2 hd2]
  show compareResultE df1 df2 = _
  unfold compareResultE
  rw [if_neg hvv, if_neg hno, if_neg hnl]

/-- C4: for nonempty classified periods (both sentiment columns present,
as batch classification leaves them, with parsed and partly valid dates)
the summary contains a volume bullet exactly
when the fractional volume change exceeds +0.2 or falls below −0.2, a
rating bullet exactly at |rating delta| beyond 0.5, a sentiment bullet
exactly at |mean-sentiment delta| beyond 0.2, the version bullet exactly
when the dominant version changed — the rules independent of one another —
and the no-significant-difference bullet exactly when none of the four
rules fired. -/
theorem claim_C4_summary_rules (parse : String → Option ℤ)
    (df1 df2 : DataFrame) (h1 : 0 < df1.n) (h2 : 0 < df2.n)
    (hd1 : df1.dtTyped = true) (hd2 : df2.dtTyped = true)
    (hv1 : validDates df1 ≠ []) (hv2 : validDates df2 ≠ [])
    (hL1 : df1.hasLabel = true) (hS1 : df1.hasScore = true)
    (hL2 : df2.hasLabel = true) (hS2 : df2.hasScore = true) :
    (compareTimePeriods parse df1 df2).1 =
      .ok (.result (mkComparison df1 df2)) ∧
    ((mkComparison df1 df2).summary.any isVolumeBullet = true ↔
      (1/5 < reviewChange df1 df2 ∨ reviewChange df1 df2 < -(1/5))) ∧
    ((mkComparison df1 df2).summary.any isRatingBullet = true ↔
      (1/2 < ratingChange df1 df2 ∨ ratingChange df1 df2 < -(1/2))) ∧
    ((mkComparison df1 df2).summary.any isSentimentBullet = true ↔
      (1/5 < sentimentChange df1 df2 ∨ sentimentChange df1 df2 < -(1/5))) ∧
    ((mkComparison df1 df2).summary.any isVersionBullet = true ↔
      versionChangedB df1 df2 = true) ∧
    (Bullet.noSignificantDifference ∈ (mkComparison df1 df2).summary ↔
      ¬(1/5 < reviewChange df1 df2 ∨ reviewChange df1 df2 < -(1/5) ∨
        1/2 < ratingChange df1 df2 ∨ ratingChange df1 df2 < -(1/2) ∨
        1/5 < sentimentChange df1 df2 ∨ sentimentChange df1 df2 < -(1/5) ∨
        versionChangedB df1 df2 = true)) := by
  have hsum : (mkComparison df1 df2).summary =
      buildSummary (reviewChange df1 df2) (ratingChange df1 df2)
        (sentimentChange df1 df2) (versionChangedB df1 df2)
        (mainVersionOf df1 df2) (mainVersionOf df2 df1) := rfl
  refine ⟨compareTimePeriods_ok parse df1 df2 h1 h2 hd1 hd2 hv1 hv2
    hL1 hS1 hL2 hS2, ?_, ?_, ?_, ?_, ?_⟩
  · rw [hsum, buildSummary_any isVolumeBullet rfl]
    exact summaryCore_any_volume _ _ _ _ _ _
  · rw [hsum, buildSummary_any isRatingBullet rfl]
    exact summaryCore_any_rating _ _ _ _ _ _
  · rw [hsum, buildSummary_any isSentimentBullet rfl]
    exact summaryCore_any_sentiment _ _ _ _ _ _
  · rw [hsum, buildSummary_any isVersionBullet rfl]
    exact summaryCore_any_version _ _ _ _ _ _
  · rw [hsum, buildSummary_noDiff_iff, summaryCore_empty_iff]

theorem claim_C4_summary_rules_witness :
    (compareTimePeriods parseNone dfTwo dfOne).1 =
      .ok (.result (mkComparison dfTwo dfOne)) ∧
    ((mkComparison dfTwo dfOne).summary.any isVersionBullet = true ↔
      versionChangedB dfTwo dfOne = true) :=
  ⟨(claim_C4_summary_rules parseNone dfTwo dfOne (by decide) (by decide)
      rfl rfl (by decide) (by decide) rfl rfl rfl rfl).1,
   (claim_C4_summary_rules parseNone dfTwo dfOne (by decide) (by decide)
      rfl rfl (by decide) (by decide) rfl rfl rfl rfl).2.2.2.2.1⟩

/-! ## Claim C10 -/

/-- C10 counterexample: the reported daily_average is the `round(_, 2)`
of total/observed-span from the report dictionary, not the exact quotient:
a period of
2 reviews spanning 3 observed days reports 0.67, not 2/3. -/
theorem claim_C10_daily_average_cex :
    (compareTimePeriods parseNone dfTwo dfOne).1 =
      Except.ok (CompareOut.result (mkComparison dfTwo dfOne)) ∧
    (mkComparison dfTwo dfOne).dailyAverage1 ≠
      (dfTwo.n : ℚ) / ((listMaxZ (validDates dfTwo) -
        listMinZ (validDates dfTwo) + 1 : ℤ) : ℚ) := by
  exact ⟨rfl, by decide⟩

/-- C10 as amended: for nonempty classified periods, the reported
per-period daily_average is the total
review count divided by the observed span of its records ((max Date − min
Date) in days, plus 1 — not the requested window), rounded half-even to
two decimals as the report dictionary does; a period whose records all
fall on one observed day reports exactly its total review count (the
rounding is exact on integers). -/
theorem claim_C10_daily_average_amended (parse : String → Option ℤ)
    (df1 df2 : DataFrame) (h1 : 0 < df1.n) (h2 : 0 < df2.n)
    (hd1 : df1.dtTyped = true) (hd2 : df2.dtTyped = true)
    (hv1 : validDates df1 ≠ []) (hv2 : validDates df2 ≠ [])
    (hL1 : df1.hasLabel = true) (hS1 : df1.hasScore = true)
    (hL2 : df2.hasLabel = true) (hS2 : df2.hasScore = true) :
    (compareTimePeriods parse df1 df2).1 =
      .ok (.result (mkComparison df1 df2)) ∧
    (mkComparison df1 df2).dailyAverage1 =
      roundTo2 ((df1.n : ℚ) / ((listMaxZ (validDates df1) -
        listMinZ (validDates df1) + 1 : ℤ) : ℚ)) ∧
    (listMaxZ (validDates df1) = listMinZ (validDates df1) →
      (mkComparison df1 df2).dailyAverage1 = (df1.n : ℚ)) := by
  have hdays : 0 < periodDays df1 := by
    have := listMinZ_le_listMaxZ (validDates df1) hv1
    unfold periodDays
    omega
  have hraw : dailyAvgRaw df1 = (df1.n : ℚ) / ((listMaxZ (validDates df1) -
      listMinZ (validDates df1) + 1 : ℤ) : ℚ) := by
    unfold dailyAvgRaw
    rw [if_pos hdays]
    rfl
  refine ⟨compareTimePeriods_ok parse df1 df2 h1 h2 hd1 hd2 hv1 hv2
    hL1 hS1 hL2 hS2, ?_, ?_⟩
  · show roundTo2 (dailyAvgRaw df1) = _
    rw [hraw]
  · intro heq
    have hpd : periodDays df1 = 1 := by
      unfold periodDays
      omega
    show roundTo2 (dailyAvgRaw df1) = (df1.n : ℚ)
    unfold dailyAvgRaw
    rw [hpd]
    norm_num
    exact roundTo2_natCast df1.n

theorem claim_C10_daily_average_amended_witness :
    (compareTimePeriods parseNone dfOne dfTwo).1 =
      .ok (.result (mkComparison dfOne dfTwo)) ∧
    (mkComparison dfOne dfTwo).dailyAverage1 = (dfOne.n : ℚ) :=
  ⟨(claim_C10_daily_average_amended parseNone dfOne dfTwo (by decide)
      (by decide) rfl rfl (by decide) (by decide) rfl rfl rfl rfl).1,
   (claim_C10_daily_average_amended parseNone dfOne dfTwo (by decide)
      (by decide) rfl rfl (by decide) (by decide) rfl rfl rfl
      rfl).2.2 (by decide)⟩

end PTCG
